import Mathlib

/-!
# Verification of the eco2mix energy dashboard data pipeline

Shallow embedding of the data-preparation and metric-derivation pipeline of
`app.py` (a Streamlit dashboard over the RTE eco2mix dataset).  Missing
values (pandas `NaN` / `NaT`) are modelled with `Option`; finite numeric
values are modelled with `ℚ`; the IEEE special values that arise from
scalar division are modelled explicitly by `PFloat`.  Pandas reductions
(`sum`, `mean`) skip missing values, `Series.between` is inclusive and
false on missing, scalar equality against a missing value is false,
`groupby` drops missing keys and sorts group keys ascending, and
`nsmallest` drops missing values and breaks ties by position (stable
mergesort); all of this is reflected in the definitions below.
-/

namespace Energie

open scoped List

/-- A parsed timestamp, as produced by `pd.to_datetime`.  The fields `year`
and `month` are the components exposed by the `.dt` accessor; `rest`
carries the sub-month precision (day, hour, minute) so that distinct
instants within one month remain distinct group keys. -/
structure DateTime where
  year : Int
  month : Int
  rest : Int
deriving DecidableEq, Repr

/-- One enriched record of the Dataset: a (region, timestamp) observation.
Every column is nullable, as in pandas.  Field names follow the CSV
columns of `app.py`: `dateHeure` is "Date - Heure", `consommation` is
"Consommation (MW)", `echPhysiques` is "Ech. physiques (MW)", and
`delta_prod_cons` is the precomputed per-row delta column. -/
structure Row where
  dateHeure : Option DateTime
  region : Option String
  annee : Option Int
  mois : Option Int
  consommation : Option ℚ
  productionTotale : Option ℚ
  solaire : Option ℚ
  eolien : Option ℚ
  hydraulique : Option ℚ
  bioenergies : Option ℚ
  pompage : Option ℚ
  echPhysiques : Option ℚ
  autonomie : Option ℚ
  delta_prod_cons : Option ℚ
deriving DecidableEq, Repr

/-- A record as read from the CSV, before Temporal Enrichment: the
timestamp is still the raw string of the "Date - Heure" column. -/
structure RawRow where
  dateHeureRaw : String
  region : Option String
  consommation : Option ℚ
  productionTotale : Option ℚ
  solaire : Option ℚ
  eolien : Option ℚ
  hydraulique : Option ℚ
  bioenergies : Option ℚ
  pompage : Option ℚ
  echPhysiques : Option ℚ
  autonomie : Option ℚ
  delta_prod_cons : Option ℚ
deriving DecidableEq, Repr

/-- Model of `pd.to_datetime(s, errors="coerce")` for one value: a parse
failure is coerced to a missing value (`NaT`), never propagated.  The
parser itself is a parameter (it is pandas library code). -/
def toDatetime (parse : String → Except String DateTime) (s : String) : Option DateTime :=
  (parse s).toOption

/-- Temporal Enrichment of one row (lines 31-35 of `app.py`): parse the
"Date - Heure" string with coercion, then derive the "Année" and "Mois"
columns from the parsed value (`.dt.year` / `.dt.month`, which are missing
exactly when the timestamp is `NaT`). -/
def enrichRow (parse : String → Except String DateTime) (raw : RawRow) : Row :=
  let t := toDatetime parse raw.dateHeureRaw
  { dateHeure := t
    region := raw.region
    annee := t.map DateTime.year
    mois := t.map DateTime.month
    consommation := raw.consommation
    productionTotale := raw.productionTotale
    solaire := raw.solaire
    eolien := raw.eolien
    hydraulique := raw.hydraulique
    bioenergies := raw.bioenergies
    pompage := raw.pompage
    echPhysiques := raw.echPhysiques
    autonomie := raw.autonomie
    delta_prod_cons := raw.delta_prod_cons }

/-- Temporal Enrichment of the whole Dataset. -/
def enrich (parse : String → Except String DateTime) (l : List RawRow) : List Row :=
  l.map (enrichRow parse)

/-- Model of `Series.between(lo, hi)` on the "Année" column: inclusive on
both endpoints, false on a missing value. -/
def between (x : Option Int) (lo hi : Int) : Bool :=
  match x with
  | some y => decide (lo ≤ y) && decide (y ≤ hi)
  | none => false

/-- The Filter Engine, line 51 of `app.py`:
`df[(df["Région"] == region) & (df["Année"].between(*annee))]`.
Pandas `==` against a scalar is false on a missing value. -/
def df_filtered (df : List Row) (region : String) (lo hi : Int) : List Row :=
  df.filter (fun r => (r.region == some region) && between r.annee lo hi)

/-- Spec-side filter predicate, written from the words of the
specification: the rows where `region == selected` and `year ∈ [min, max]`. -/
def specFilterPred (region : String) (lo hi : Int) (r : Row) : Prop :=
  r.region = some region ∧ ∃ y, r.annee = some y ∧ lo ≤ y ∧ y ≤ hi

instance (region : String) (lo hi : Int) (r : Row) :
    Decidable (specFilterPred region lo hi r) :=
  match h : r.annee with
  | some y =>
      decidable_of_iff (r.region = some region ∧ lo ≤ y ∧ y ≤ hi)
        (by simp [specFilterPred, h])
  | none => isFalse (by simp [specFilterPred, h])

/-- Elementwise subtraction of two nullable columns: missing if either
operand is missing (pandas `NaN` propagation). -/
def subOpt (a b : Option ℚ) : Option ℚ :=
  match a, b with
  | some x, some y => some (x - y)
  | _, _ => none

/-- A row of a frame that carries the derived "delta" column next to the
base columns. -/
structure RowDelta where
  base : Row
  delta : Option ℚ
deriving DecidableEq, Repr

/-- Line 90 of `app.py`:
`df_filtered["delta"] = df_filtered["Production_totale"] - df_filtered["Consommation (MW)"]`. -/
def addDeltaColumn (l : List Row) : List RowDelta :=
  l.map (fun r => { base := r, delta := subOpt r.productionTotale r.consommation })

/-- Model of `Series.sum()` on a nullable column: missing values are
skipped, and the sum of no values is `0` (pandas `skipna` default with
`min_count=0`). -/
def sumOpt (xs : List (Option ℚ)) : ℚ :=
  (xs.filterMap id).sum

/-- Chronological order on parsed timestamps, used for the sorted group
keys of `groupby("Date - Heure")`. -/
def DateTime.le (a b : DateTime) : Prop :=
  a.year < b.year ∨ (a.year = b.year ∧
    (a.month < b.month ∨ (a.month = b.month ∧ a.rest ≤ b.rest)))

instance (a b : DateTime) : Decidable (DateTime.le a b) :=
  inferInstanceAs (Decidable (a.year < b.year ∨ (a.year = b.year ∧
    (a.month < b.month ∨ (a.month = b.month ∧ a.rest ≤ b.rest)))))

/-- Distinct non-missing timestamps of the Dataset, sorted ascending: the
group keys of `df.groupby("Date - Heure")` (pandas drops missing keys and
sorts keys). -/
def natKeys (df : List Row) : List DateTime :=
  ((df.filterMap Row.dateHeure).dedup).insertionSort DateTime.le

/-- One row of the national aggregation before the delta column is added:
the result of `df.groupby("Date - Heure")[["Consommation (MW)", "Production_totale"]].sum()`. -/
structure NatRow0 where
  dateHeure : DateTime
  consommation : ℚ
  productionTotale : ℚ
deriving DecidableEq, Repr

/-- One row of the national aggregation `df_nat` with its derived delta. -/
structure NatRow where
  dateHeure : DateTime
  consommation : ℚ
  productionTotale : ℚ
  delta : ℚ
deriving DecidableEq, Repr

/-- The rows of the Dataset carrying a given timestamp: one group of
`groupby("Date - Heure")`. -/
def rowsAt (df : List Row) (t : DateTime) : List Row :=
  df.filter (fun r => r.dateHeure == some t)

/-- Line 118 of `app.py`: per-timestamp sums of consumption and total
production over the full Dataset. -/
def df_nat0 (df : List Row) : List NatRow0 :=
  (natKeys df).map (fun t =>
    { dateHeure := t
      consommation := sumOpt ((rowsAt df t).map Row.consommation)
      productionTotale := sumOpt ((rowsAt df t).map Row.productionTotale) })

/-- Line 119 of `app.py`:
`df_nat["delta"] = df_nat["Production_totale"] - df_nat["Consommation (MW)"]`. -/
def df_nat (df : List Row) : List NatRow :=
  (df_nat0 df).map (fun g =>
    { dateHeure := g.dateHeure
      consommation := g.consommation
      productionTotale := g.productionTotale
      delta := g.productionTotale - g.consommation })

/-- Model of `Series.mean()` on a nullable column: the mean of the
non-missing values, missing when there is none. -/
def meanOpt (xs : List (Option ℚ)) : Option ℚ :=
  let v := xs.filterMap id
  if v.length = 0 then none else some (v.sum / (v.length : ℚ))

/-- Mean of the "delta_prod_cons" column over the rows of one region. -/
def meanDelta (df : List Row) (k : String) : Option ℚ :=
  meanOpt ((df.filter (fun r => r.region == some k)).map Row.delta_prod_cons)

/-- Lexicographic (code-point) order on labels, the order Python uses to
compare strings and hence the order of pandas group keys. -/
def keyLe (a b : String) : Prop := a.data ≤ b.data

/-- Strict lexicographic (code-point) order on labels. -/
def keyLt (a b : String) : Prop := a.data < b.data

instance : DecidableRel keyLe :=
  fun a b => inferInstanceAs (Decidable (a.data ≤ b.data))

instance : IsTotal String keyLe :=
  ⟨fun a b => le_total a.data b.data⟩

instance : IsTrans String keyLe :=
  ⟨fun _ _ _ h1 h2 => le_trans h1 h2⟩

/-- Distinct non-missing region labels of the Dataset, sorted ascending:
the group keys of `df.groupby("Région")`. -/
def regionKeys (df : List Row) : List String :=
  ((df.filterMap Row.region).dedup).insertionSort keyLe

/-- The series `df.groupby("Région")["delta_prod_cons"].mean()`: group
keys sorted ascending, each with the mean of its group. -/
def groupRegionMeanDelta (df : List Row) : List (String × Option ℚ) :=
  (regionKeys df).map (fun k => (k, meanDelta df k))

/-- Missing values are dropped by `Series.nsmallest` before selection. -/
def dropna (s : List (String × Option ℚ)) : List (String × ℚ) :=
  s.filterMap (fun p => p.2.map (fun v => (p.1, v)))

/-- Comparison by value used by `nsmallest` (labels are not compared: ties
are left in the order of the underlying series, i.e. the sort is stable). -/
def valLe (a b : String × ℚ) : Prop := a.2 ≤ b.2

instance : DecidableRel valLe :=
  fun a b => inferInstanceAs (Decidable (a.2 ≤ b.2))

instance : IsTotal (String × ℚ) valLe :=
  ⟨fun a b => le_total a.2 b.2⟩

instance : IsTrans (String × ℚ) valLe :=
  ⟨fun _ _ _ h1 h2 => le_trans h1 h2⟩

/-- Model of `Series.nsmallest(n)`: drop missing values, stable sort
ascending by value, take the first `n` (pandas uses a stable mergesort;
`List.insertionSort` is stable as well). -/
def nsmallest (n : Nat) (s : List (String × Option ℚ)) : List (String × ℚ) :=
  ((dropna s).insertionSort valLe).take n

/-- Line 256 of `app.py`:
`df.groupby("Région")["delta_prod_cons"].mean().nsmallest(5).index.tolist()`. -/
def top_risque (df : List Row) : List String :=
  (nsmallest 5 (groupRegionMeanDelta df)).map Prod.fst

/-- A scalar float value as produced by numpy scalar division: either a
finite value or one of the IEEE special values. -/
inductive PFloat where
  | finite : ℚ → PFloat
  | posInf : PFloat
  | negInf : PFloat
  | nan : PFloat
deriving DecidableEq, Repr

/-- IEEE-754 division of two finite scalars (the semantics of dividing two
numpy float64 scalars): division by zero yields `nan` when the numerator
is also zero and a signed infinity otherwise; no exception is raised. -/
def fdiv (a b : ℚ) : PFloat :=
  if b = 0 then
    (if a = 0 then PFloat.nan else if 0 < a then PFloat.posInf else PFloat.negInf)
  else PFloat.finite (a / b)

/-- Line 189 of `app.py`:
`dependance = df_filtered["Ech. physiques (MW)"].sum() / df_filtered["Consommation (MW)"].sum()`. -/
def dependance (dfF : List Row) : PFloat :=
  fdiv (sumOpt (dfF.map Row.echPhysiques)) (sumOpt (dfF.map Row.consommation))

/-- Model of `str.strip()` on one column name: drop leading and trailing
whitespace characters. -/
def strip (s : String) : String :=
  String.mk (((s.data.dropWhile Char.isWhitespace).reverse.dropWhile
    Char.isWhitespace).reverse)

/-- The required timestamp column of the Schema Validator. -/
def requiredCol : String := "Date - Heure"

/-- Lines 23-28 of `app.py`: the presence check for "Date - Heure" runs on
the raw column names (line 23); only after the check passes are the column
names stripped of surrounding whitespace (line 28).  `none` models
`st.stop()`: the process halts with no output. -/
def validateColumns (cols : List String) : Option (List String) :=
  if requiredCol ∈ cols then some (cols.map (fun c => strip c)) else none

/-- Schema validation as the specification words it: the required column
is looked up by exact name after trimming leading/trailing whitespace from
all column names. -/
def specValidateColumns (cols : List String) : Option (List String) :=
  let t := cols.map (fun c => strip c)
  if requiredCol ∈ t then some t else none

/-- Line 178 of `app.py`: the "Prod_ENR" column,
`df_enr[["Solaire (MW)", "Eolien (MW)", "Hydraulique (MW)", "Bioénergies (MW)"]].sum(axis=1)`
(a row-wise sum that skips missing values). -/
def prodENRRow (r : Row) : ℚ :=
  sumOpt [r.solaire, r.eolien, r.hydraulique, r.bioenergies]

/-- A row of the Focus ENR frame with its derived "Prod_ENR" column. -/
structure RowENR where
  base : Row
  prodENR : ℚ
deriving DecidableEq, Repr

/-- A row of the Scénario 2030 frame with its derived "Simul_delta" column. -/
structure RowSimul where
  base : Row
  simulDelta : Option ℚ
deriving DecidableEq, Repr

/-- Model of `df["Date - Heure"].dt.month.isin(ms)`: false on a missing
timestamp. -/
def dtMonthIn (r : Row) (ms : List Int) : Bool :=
  match r.dateHeure with
  | some t => ms.contains t.month
  | none => false

/-- Model of `df["Région"].isin(ks)`: false on a missing region. -/
def regionIn (r : Row) (ks : List String) : Bool :=
  match r.region with
  | some s => ks.contains s
  | none => false

/-- The Visualisations page (lines 75-100): the first component is the
state of the enriched Dataset `df` after the render.  Boolean indexing
(line 51) returns a fresh frame, so the column assignment of line 90
targets `df_filtered`, never `df`. -/
def renderVisualisations (df : List Row) (region : String) (lo hi : Int) :
    List Row × List RowDelta :=
  (df, addDeltaColumn (df_filtered df region lo hi))

/-- The Focus ENR page (lines 175-180): `df_enr = df.copy()` allocates a
fresh frame, so the "Prod_ENR" assignment of line 178 never touches `df`. -/
def renderFocusENR (df : List Row) : List Row × List RowENR :=
  (df, df.map (fun r => { base := r, prodENR := prodENRRow r }))

/-- The Risque national page (lines 103-148): `groupby(...).sum()` builds
a new frame, so lines 118-119 never touch `df`. -/
def renderRisqueNational (df : List Row) : List Row × List NatRow :=
  (df, df_nat df)

/-- The Scénario 2030 page (lines 241-267): `df[...].copy()` on line 260
allocates a fresh frame, so the "Simul_delta" assignment of line 261
(`df_2030["delta_prod_cons"] * 1.2`) never touches `df`. -/
def renderScenario2030 (df : List Row) : List Row × List RowSimul :=
  (df, (df.filter (fun r => dtMonthIn r [1, 2] && regionIn r (top_risque df))).map
    (fun r => { base := r, simulDelta := r.delta_prod_cons.map (fun v => v * (6 / 5 : ℚ)) }))

/-- The user-selected sidebar filter context of one run. -/
structure FilterCtx where
  region : String
  lo : Int
  hi : Int
deriving DecidableEq, Repr

/-- The "5 most deficitary regions" list as computed during a run with
filter context `_ctx`: line 256 reads the full `df`, not `df_filtered`,
so the context is not consulted. -/
def scenarioTopRisque (df : List Row) (_ctx : FilterCtx) : List String :=
  top_risque df

/-- The national aggregation as computed during a run with filter context
`_ctx`: line 118 reads the full `df`, not `df_filtered`. -/
def risqueNatTable (df : List Row) (_ctx : FilterCtx) : List NatRow :=
  df_nat df

/-- A concrete row used by witnesses: Bretagne, year 2020, consumption
1000 MW, production 950 MW. -/
def rowA : Row :=
  { dateHeure := some ⟨2020, 1, 0⟩
    region := some "Bretagne"
    annee := some 2020
    mois := some 1
    consommation := some 1000
    productionTotale := some 950
    solaire := none
    eolien := none
    hydraulique := none
    bioenergies := none
    pompage := none
    echPhysiques := some 5
    autonomie := none
    delta_prod_cons := some (-50) }

/-- A concrete row whose consumption is 0 while its physical exchange
balance is 5: the consumption sum of the filtered subset is zero with a
nonzero exchange sum. -/
def rowZ : Row :=
  { dateHeure := some ⟨2020, 1, 0⟩
    region := some "Bretagne"
    annee := some 2020
    mois := some 1
    consommation := some 0
    productionTotale := none
    solaire := none
    eolien := none
    hydraulique := none
    bioenergies := none
    pompage := none
    echPhysiques := some 5
    autonomie := none
    delta_prod_cons := none }

/-- A minimal row for region-aggregation examples: only the region label
and the "delta_prod_cons" value are set. -/
def mkRegionRow (name : String) (d : Option ℚ) : Row :=
  { dateHeure := none
    region := some name
    annee := none
    mois := none
    consommation := none
    productionTotale := none
    solaire := none
    eolien := none
    hydraulique := none
    bioenergies := none
    pompage := none
    echPhysiques := none
    autonomie := none
    delta_prod_cons := d }

/-- Five distinct regions, of which region "E" has no defined delta value
at all (its mean delta is missing). -/
def dfRegions : List Row :=
  [mkRegionRow "A" (some (-4)), mkRegionRow "B" (some (-3)),
   mkRegionRow "C" (some (-2)), mkRegionRow "D" (some (-1)),
   mkRegionRow "E" none]

/-- A one-region Dataset used by the aggregation witness. -/
def dfB : List Row := [mkRegionRow "A" (some (-4))]

/-- A parser that fails on every input, standing for a dataset whose
timestamp strings are all unparseable. -/
def badParse : String → Except String DateTime :=
  fun _ => Except.error "unparseable"

/-- A raw CSV record with an unparseable timestamp string. -/
def rawEx : RawRow :=
  { dateHeureRaw := "not a date"
    region := some "Bretagne"
    consommation := some 100
    productionTotale := some 90
    solaire := none
    eolien := none
    hydraulique := none
    bioenergies := none
    pompage := none
    echPhysiques := none
    autonomie := none
    delta_prod_cons := some (-10) }

/-- Helper: the pandas filter predicate of line 51 agrees pointwise with
the predicate the specification describes. -/
theorem filterPred_eq (region : String) (lo hi : Int) (r : Row) :
    ((r.region == some region) && between r.annee lo hi)
      = decide (specFilterPred region lo hi r) := by
  rw [Bool.eq_iff_iff]
  simp only [Bool.and_eq_true, beq_iff_eq, decide_eq_true_eq, specFilterPred]
  cases h : r.annee <;> simp [between, h]

/-- Helper: `between` holds exactly on a defined year inside the range. -/
theorem between_eq_true_iff (x : Option Int) (lo hi : Int) :
    between x lo hi = true ↔ ∃ y, x = some y ∧ lo ≤ y ∧ y ≤ hi := by
  cases x <;> simp [between]

/-- C2: the Filter Engine returns exactly the rows whose region equals the
selected region and whose year lies in the inclusive range, and it
preserves the input row order (the output is a sublist of the input). -/
theorem df_filtered_exact (df : List Row) (region : String) (lo hi : Int) :
    df_filtered df region lo hi
        = df.filter (fun r => decide (specFilterPred region lo hi r))
    ∧ df_filtered df region lo hi <+ df := by
  constructor
  · exact List.filter_congr (fun r _ => filterPred_eq region lo hi r)
  · exact List.filter_sublist df

/-- C9: the Filter Engine is shrinking (its output is a sublist of its
input, hence a subset of the rows) and idempotent: filtering its own
output with the same region and year range returns the same result. -/
theorem df_filtered_idempotent (df : List Row) (region : String) (lo hi : Int) :
    df_filtered df region lo hi <+ df
    ∧ df_filtered (df_filtered df region lo hi) region lo hi
        = df_filtered df region lo hi := by
  refine ⟨List.filter_sublist df, ?_⟩
  unfold df_filtered
  rw [List.filter_filter]
  exact List.filter_congr (fun r _ => Bool.and_self _)

/-- C4: Temporal Enrichment is a total function (a parse failure is
coerced to a missing timestamp, never raised), and the derived year and
month of an enriched row are defined together or missing together. -/
theorem enrich_coerce_year_month (parse : String → Except String DateTime)
    (raw : RawRow) :
    (∀ e, parse raw.dateHeureRaw = Except.error e →
        (enrichRow parse raw).dateHeure = none)
    ∧ ((enrichRow parse raw).annee.isSome ↔ (enrichRow parse raw).mois.isSome) := by
  constructor
  · intro e he
    simp [enrichRow, toDatetime, he, Except.toOption]
  · cases h : parse raw.dateHeureRaw <;>
      simp [enrichRow, toDatetime, h, Except.toOption]

/-- Witness for C4 at a concrete unparseable record. -/
theorem enrich_coerce_year_month_witness :
    (enrichRow badParse rawEx).dateHeure = none
    ∧ ((enrichRow badParse rawEx).annee.isSome ↔ (enrichRow badParse rawEx).mois.isSome) :=
  ⟨(enrich_coerce_year_month badParse rawEx).1 "unparseable" rfl,
   (enrich_coerce_year_month badParse rawEx).2⟩

/-- C8: no page render mutates the enriched Dataset.  Each render's first
component is the state of `df` after the page's pipeline has run; the
derived columns (`delta`, `Prod_ENR`, `Simul_delta`) are written to fresh
frames produced by boolean indexing, `.copy()` or `groupby`, so `df` is
returned unchanged by every page. -/
theorem pages_leave_dataset_unchanged (df : List Row) (region : String) (lo hi : Int) :
    (renderVisualisations df region lo hi).1 = df
    ∧ (renderFocusENR df).1 = df
    ∧ (renderRisqueNational df).1 = df
    ∧ (renderScenario2030 df).1 = df :=
  ⟨rfl, rfl, rfl, rfl⟩

/-- C10: the "5 most deficitary regions" list of the Scénario 2030 page
and the national aggregation of the Risque national page are computed from
the full Dataset; two runs with different filter contexts produce
identical results. -/
theorem risk_outputs_filter_independent (df : List Row) (c c' : FilterCtx) :
    scenarioTopRisque df c = scenarioTopRisque df c'
    ∧ risqueNatTable df c = risqueNatTable df c' :=
  ⟨rfl, rfl⟩

/-- C1: the derived delta column equals total production minus consumption
exactly, for every row of the enriched (filtered) frame where both inputs
are defined; and every row of the national per-timestamp aggregation
carries delta equal to the summed production minus the summed consumption
of the rows at its timestamp. -/
theorem delta_eq_prod_sub_cons (df : List Row) (region : String) (lo hi : Int) :
    (∀ rd ∈ addDeltaColumn (df_filtered df region lo hi), ∀ p c,
        rd.base.productionTotale = some p → rd.base.consommation = some c →
          rd.delta = some (p - c))
    ∧ (∀ g ∈ df_nat df,
        g.delta = sumOpt ((rowsAt df g.dateHeure).map Row.productionTotale)
                    - sumOpt ((rowsAt df g.dateHeure).map Row.consommation)) := by
  constructor
  · intro rd hmem p c hp hc
    rcases List.mem_map.mp hmem with ⟨r, _, rfl⟩
    simp only at hp hc
    simp [subOpt, hp, hc]
  · intro g hg
    rcases List.mem_map.mp hg with ⟨g0, hg0, rfl⟩
    rcases List.mem_map.mp hg0 with ⟨t, _, rfl⟩
    rfl

/-- Witness for C1 at a concrete one-row Dataset. -/
theorem delta_eq_prod_sub_cons_witness :
    ({ base := rowA, delta := subOpt rowA.productionTotale rowA.consommation } : RowDelta).delta
      = some ((950 : ℚ) - 1000) :=
  (delta_eq_prod_sub_cons [rowA] "Bretagne" 2018 2023).1
    { base := rowA, delta := subOpt rowA.productionTotale rowA.consommation }
    (by simp [addDeltaColumn, df_filtered, rowA, between]) 950 1000 rfl rfl

/-- C5 counterexample: over the filtered subset `[rowZ]` the consumption
sum is zero but the exchange sum is 5, and the Dépendance ratio is `+∞`
(numpy float64 division of a nonzero scalar by zero), not NaN/null as the
claim states. -/
theorem dependance_zero_denom_counterexample :
    sumOpt ((df_filtered [rowZ] "Bretagne" 2018 2023).map Row.consommation) = 0
    ∧ dependance (df_filtered [rowZ] "Bretagne" 2018 2023) = PFloat.posInf
    ∧ dependance (df_filtered [rowZ] "Bretagne" 2018 2023) ≠ PFloat.nan := by
  norm_num [df_filtered, rowZ, between, sumOpt, dependance, fdiv,
    List.filterMap_cons, List.sum_cons, List.sum_nil]
  decide

/-- C5 amended: when the consumption sum of the filtered subset is zero,
the Dépendance ratio is NaN when the exchange sum is also zero and a
signed infinity otherwise; it is never the finite value 0 and no exception
is raised (the division is total). -/
theorem dependance_zero_denominator (df : List Row) (region : String) (lo hi : Int)
    (h : sumOpt ((df_filtered df region lo hi).map Row.consommation) = 0) :
    dependance (df_filtered df region lo hi)
      = (if sumOpt ((df_filtered df region lo hi).map Row.echPhysiques) = 0
          then PFloat.nan
          else if 0 < sumOpt ((df_filtered df region lo hi).map Row.echPhysiques)
            then PFloat.posInf else PFloat.negInf)
    ∧ dependance (df_filtered df region lo hi) ≠ PFloat.finite 0 := by
  constructor
  · unfold dependance fdiv
    rw [if_pos h]
  · unfold dependance fdiv
    rw [if_pos h]
    split_ifs <;> simp

/-- Witness for the amended C5 at a concrete subset with zero consumption
sum and positive exchange sum. -/
theorem dependance_zero_denominator_witness :
    dependance (df_filtered [rowZ] "Bretagne" 2018 2023)
      = (if sumOpt ((df_filtered [rowZ] "Bretagne" 2018 2023).map Row.echPhysiques) = 0
          then PFloat.nan
          else if 0 < sumOpt ((df_filtered [rowZ] "Bretagne" 2018 2023).map Row.echPhysiques)
            then PFloat.posInf else PFloat.negInf)
    ∧ dependance (df_filtered [rowZ] "Bretagne" 2018 2023) ≠ PFloat.finite 0 :=
  dependance_zero_denominator [rowZ] "Bretagne" 2018 2023
    (by norm_num [df_filtered, rowZ, between, sumOpt,
      List.filterMap_cons, List.sum_cons, List.sum_nil])

/-- C3 counterexample: with the single raw column name " Date - Heure"
(leading space) the code halts (the presence check of line 23 runs before
the whitespace stripping of line 28), while the specified behaviour —
check after trimming — would accept the file. -/
theorem schema_check_counterexample :
    validateColumns [" Date - Heure"] = none
    ∧ specValidateColumns [" Date - Heure"] = some ["Date - Heure"] := by
  constructor
  · decide
  · decide

/-- C3 amended: the Schema Validator checks for "Date - Heure" by exact
name on the raw, untrimmed column names; if the column is absent under
that exact raw name the process halts after displaying the available
columns, producing no output; only when the check passes are the column
names trimmed. -/
theorem schema_check_untrimmed (cols : List String) :
    (requiredCol ∉ cols → validateColumns cols = none)
    ∧ (requiredCol ∈ cols → validateColumns cols = some (cols.map (fun c => strip c))) := by
  constructor
  · intro h
    simp [validateColumns, h]
  · intro h
    simp [validateColumns, h]

/-- Witness for the amended C3: a file with only the padded column halts,
a file with the exact column passes and gets trimmed names. -/
theorem schema_check_untrimmed_witness :
    validateColumns [" Date - Heure"] = none
    ∧ validateColumns ["Date - Heure"] = some (["Date - Heure"].map (fun c => strip c)) :=
  ⟨(schema_check_untrimmed [" Date - Heure"]).1 (by decide),
   (schema_check_untrimmed ["Date - Heure"]).2 (by decide)⟩

/-- C7 counterexample: "Normandie" is not among the regions observed in
the one-row Dataset `[rowA]`, yet the Filter Engine silently returns the
empty result instead of failing; likewise a year range violating
`min ≤ max` silently returns empty. -/
theorem filter_no_validation_counterexample :
    (∀ r ∈ [rowA], r.region ≠ some "Normandie")
    ∧ df_filtered [rowA] "Normandie" 2018 2023 = []
    ∧ df_filtered [rowA] "Bretagne" 2023 2018 = [] := by
  decide

/-- C7 amended: the Filter Engine performs no domain validation — for a
region not observed in the Dataset it silently returns the empty result,
and for a year range with `min > max` it silently returns the empty
result; no error is ever raised (the filter is a total function). -/
theorem filter_no_validation (df : List Row) (region : String) (lo hi : Int) :
    ((∀ r ∈ df, r.region ≠ some region) → df_filtered df region lo hi = [])
    ∧ (hi < lo → df_filtered df region lo hi = []) := by
  constructor
  · intro h
    unfold df_filtered
    rw [List.filter_eq_nil_iff]
    intro r hr
    simp [h r hr, between]
  · intro h
    unfold df_filtered
    rw [List.filter_eq_nil_iff]
    intro r _
    cases hy : r.annee with
    | none => simp [between, hy]
    | some y =>
        simp only [between, hy, Bool.and_eq_true, decide_eq_true_eq, not_and]
        intro _ h1 h2
        omega

/-- Witness for the amended C7 at the concrete inputs of the
counterexample. -/
theorem filter_no_validation_witness :
    df_filtered [rowA] "Normandie" 2018 2023 = []
    ∧ df_filtered [rowA] "Bretagne" 2023 2018 = [] :=
  ⟨(filter_no_validation [rowA] "Normandie" 2018 2023).1 (by decide),
   (filter_no_validation [rowA] "Bretagne" 2023 2018).2 (by decide)⟩

/-- Helper: a string is determined by its character data. -/
theorem data_injective {a b : String} (h : a.data = b.data) : a = b := by
  cases a
  cases b
  exact congrArg String.mk h

/-- Helper: two distinct members of a list occur, in one order or the
other, as a two-element sublist. -/
theorem mem_pair_sublist {α : Type _} {a b : α} :
    ∀ {l : List α}, a ∈ l → b ∈ l → a ≠ b → [a, b] <+ l ∨ [b, a] <+ l := by
  intro l
  induction l with
  | nil => intro ha; cases ha
  | cons x xs ih =>
    intro ha hb hne
    rcases List.mem_cons.mp ha with rfl | ha'
    · rcases List.mem_cons.mp hb with rfl | hb'
      · exact absurd rfl hne
      · exact Or.inl (List.Sublist.cons₂ _ (List.singleton_sublist.mpr hb'))
    · rcases List.mem_cons.mp hb with rfl | hb'
      · exact Or.inr (List.Sublist.cons₂ _ (List.singleton_sublist.mpr ha'))
      · rcases ih ha' hb' hne with h | h
        · exact Or.inl (h.cons _)
        · exact Or.inr (h.cons _)

/-- Helper: in a duplicate-free list the two-element sublists `[a, b]` and
`[b, a]` cannot both occur unless `a = b`. -/
theorem pair_sublist_asymm {α : Type _} {a b : α} :
    ∀ {l : List α}, l.Nodup → [a, b] <+ l → [b, a] <+ l → a = b := by
  intro l
  induction l with
  | nil =>
    intro _ h
    exact absurd h (by simp)
  | cons x xs ih =>
    intro hnd h1 h2
    rcases List.nodup_cons.mp hnd with ⟨hx, hnd'⟩
    cases h1 with
    | cons _ h1' =>
      cases h2 with
      | cons _ h2' => exact ih hnd' h1' h2'
      | cons₂ _ h2' => exact absurd (h1'.subset (by simp)) hx
    | cons₂ _ h1' =>
      cases h2 with
      | cons _ h2' => exact absurd (h2'.subset (by simp)) hx
      | cons₂ _ h2' => rfl

/-- Helper: a duplicate-free list has no sublist of the form `[a, a]`. -/
theorem not_pair_self_sublist {α : Type _} {a : α} {l : List α}
    (hnd : l.Nodup) : ¬ [a, a] <+ l := by
  intro h
  exact List.pairwise_iff_forall_sublist.mp hnd h rfl

/-- Helper: stable sorting by value of a pair list with strictly
increasing labels produces a list sorted by value in which ties keep the
label order. -/
theorem insertionSort_stable_pairs (d : List (String × ℚ))
    (hd : d.Pairwise (fun a b => keyLt a.1 b.1)) :
    (d.insertionSort valLe).Pairwise
      (fun a b => a.2 < b.2 ∨ (a.2 = b.2 ∧ keyLt a.1 b.1)) := by
  have hnd : d.Nodup := by
    refine hd.imp ?_
    intro a b hab heq
    rw [heq] at hab
    exact lt_irrefl _ hab
  have hsorted : (d.insertionSort valLe).Pairwise valLe :=
    List.sorted_insertionSort valLe d
  have hperm : d.insertionSort valLe ~ d := List.perm_insertionSort valLe d
  have hnds : (d.insertionSort valLe).Nodup := hperm.nodup_iff.mpr hnd
  rw [List.pairwise_iff_forall_sublist]
  intro a b hab
  have hle : a.2 ≤ b.2 := List.pairwise_iff_forall_sublist.mp hsorted hab
  rcases lt_or_eq_of_le hle with hlt | heq
  · exact Or.inl hlt
  · refine Or.inr ⟨heq, ?_⟩
    have hane : a ≠ b := by
      intro h
      rw [h] at hab
      exact not_pair_self_sublist hnds hab
    have ha : a ∈ d := hperm.subset (hab.subset (by simp))
    have hb : b ∈ d := hperm.subset (hab.subset (by simp))
    rcases mem_pair_sublist ha hb hane with h1 | h1
    · exact List.pairwise_iff_forall_sublist.mp hd h1
    · have hba : [b, a] <+ d.insertionSort valLe :=
        List.sublist_insertionSort
          (List.pairwise_pair.mpr (le_of_eq heq.symm)) h1
      exact absurd (pair_sublist_asymm hnds hab hba) hane

/-- Helper: the labels of the region aggregation are strictly increasing. -/
theorem groupRegion_labels_pairwise (df : List Row) :
    (groupRegionMeanDelta df).Pairwise (fun p q => keyLt p.1 q.1) := by
  unfold groupRegionMeanDelta
  rw [List.pairwise_map]
  have h1 : (regionKeys df).Pairwise keyLe := List.sorted_insertionSort _ _
  have h2 : (regionKeys df).Nodup :=
    (List.perm_insertionSort _ _).nodup_iff.mpr (List.nodup_dedup _)
  refine (h1.and h2).imp ?_
  intro a b h
  exact lt_of_le_of_ne h.1 (fun he => h.2 (data_injective he))

/-- Helper: the labels retained by `dropna` are strictly increasing. -/
theorem dropna_labels_pairwise (df : List Row) :
    (dropna (groupRegionMeanDelta df)).Pairwise (fun a b => keyLt a.1 b.1) := by
  unfold dropna
  rw [List.pairwise_filterMap]
  refine (groupRegion_labels_pairwise df).imp ?_
  intro p q h x hx y hy
  rw [Option.mem_def] at hx hy
  rcases Option.map_eq_some'.mp hx with ⟨v, hv, rfl⟩
  rcases Option.map_eq_some'.mp hy with ⟨w, hw, rfl⟩
  exact h

/-- Helper: every pair retained by `dropna` is a region key paired with
its defined mean delta. -/
theorem dropna_mem (df : List Row) {p : String × ℚ}
    (hp : p ∈ dropna (groupRegionMeanDelta df)) :
    p.1 ∈ regionKeys df ∧ meanDelta df p.1 = some p.2 := by
  unfold dropna at hp
  rcases List.mem_filterMap.mp hp with ⟨q, hq, hmap⟩
  rcases Option.map_eq_some'.mp hmap with ⟨v, hv, rfl⟩
  unfold groupRegionMeanDelta at hq
  rcases List.mem_map.mp hq with ⟨k, hk, rfl⟩
  exact ⟨hk, hv⟩

/-- C6 counterexample: `dfRegions` has five distinct regions, but region
"E" has no defined delta value, so its mean delta is missing and
`nsmallest` drops it: the "5 most deficitary regions" list has only four
labels even though five distinct regions exist. -/
theorem top_risque_claim_counterexample :
    (regionKeys dfRegions).length = 5 ∧ (top_risque dfRegions).length = 4 := by
  have hkeys : regionKeys dfRegions = ["A", "B", "C", "D", "E"] := by decide
  have fA : dfRegions.filter (fun r => r.region == some "A")
      = [mkRegionRow "A" (some (-4))] := by decide
  have fB : dfRegions.filter (fun r => r.region == some "B")
      = [mkRegionRow "B" (some (-3))] := by decide
  have fC : dfRegions.filter (fun r => r.region == some "C")
      = [mkRegionRow "C" (some (-2))] := by decide
  have fD : dfRegions.filter (fun r => r.region == some "D")
      = [mkRegionRow "D" (some (-1))] := by decide
  have hA : meanDelta dfRegions "A" = some (-4) := by
    unfold meanDelta
    rw [fA]
    norm_num [meanOpt, mkRegionRow, List.filterMap_cons, List.sum_cons, List.sum_nil]
  have hB : meanDelta dfRegions "B" = some (-3) := by
    unfold meanDelta
    rw [fB]
    norm_num [meanOpt, mkRegionRow, List.filterMap_cons, List.sum_cons, List.sum_nil]
  have hC : meanDelta dfRegions "C" = some (-2) := by
    unfold meanDelta
    rw [fC]
    norm_num [meanOpt, mkRegionRow, List.filterMap_cons, List.sum_cons, List.sum_nil]
  have hD : meanDelta dfRegions "D" = some (-1) := by
    unfold meanDelta
    rw [fD]
    norm_num [meanOpt, mkRegionRow, List.filterMap_cons, List.sum_cons, List.sum_nil]
  have hE : meanDelta dfRegions "E" = none := by decide
  have hg : groupRegionMeanDelta dfRegions
      = [("A", some (-4)), ("B", some (-3)), ("C", some (-2)),
         ("D", some (-1)), ("E", none)] := by
    unfold groupRegionMeanDelta
    rw [hkeys]
    simp [hA, hB, hC, hD, hE]
  constructor
  · rw [hkeys]
    rfl
  · unfold top_risque nsmallest
    rw [hg]
    decide

/-- C6 (amended): the "5 most deficitary regions" list contains exactly
`min 5 k` labels, where `k` is the number of regions whose mean delta is
defined (regions whose delta values are all missing are dropped by
`nsmallest`, so fewer than 5 labels can be returned even when 5 distinct
regions exist); the selected pairs are sorted ascending by mean delta with
ties in lexical label order; every returned label is a region of the
Dataset carrying its defined mean delta; and the labels are distinct. -/
theorem top_risque_sorted (df : List Row) :
    (top_risque df).length = min 5 (dropna (groupRegionMeanDelta df)).length
    ∧ (nsmallest 5 (groupRegionMeanDelta df)).Pairwise
        (fun a b => a.2 < b.2 ∨ (a.2 = b.2 ∧ keyLt a.1 b.1))
    ∧ (∀ p ∈ nsmallest 5 (groupRegionMeanDelta df),
        p.1 ∈ regionKeys df ∧ meanDelta df p.1 = some p.2)
    ∧ (top_risque df).Nodup := by
  have hpw := insertionSort_stable_pairs (dropna (groupRegionMeanDelta df))
    (dropna_labels_pairwise df)
  have htake : (nsmallest 5 (groupRegionMeanDelta df)).Pairwise
      (fun a b => a.2 < b.2 ∨ (a.2 = b.2 ∧ keyLt a.1 b.1)) :=
    List.Pairwise.sublist (List.take_sublist _ _) hpw
  have hmem : ∀ p ∈ nsmallest 5 (groupRegionMeanDelta df),
      p.1 ∈ regionKeys df ∧ meanDelta df p.1 = some p.2 := by
    intro p hp
    have hp' : p ∈ dropna (groupRegionMeanDelta df) :=
      (List.perm_insertionSort valLe _).subset ((List.take_sublist _ _).subset hp)
    exact dropna_mem df hp'
  refine ⟨?_, htake, hmem, ?_⟩
  · unfold top_risque nsmallest
    rw [List.length_map, List.length_take,
      (List.perm_insertionSort valLe _).length_eq]
  · have hne : (nsmallest 5 (groupRegionMeanDelta df)).Pairwise
        (fun a b => a.1 ≠ b.1) := by
      rw [List.pairwise_iff_forall_sublist]
      intro a b hab
      have hR := List.pairwise_iff_forall_sublist.mp htake hab
      have hma := hmem a (hab.subset (by simp))
      have hmb := hmem b (hab.subset (by simp))
      intro h1
      rcases hR with hlt | ⟨heq, hlab⟩
      · rw [h1] at hma
        have : a.2 = b.2 := Option.some.inj (hma.2.symm.trans hmb.2)
        rw [this] at hlt
        exact lt_irrefl _ hlt
      · rw [h1] at hlab
        exact lt_irrefl _ hlab
    exact List.pairwise_map.mpr hne

/-- Witness for the amended C6 at a concrete one-region Dataset. -/
theorem top_risque_sorted_witness :
    ("A", (-4 : ℚ)).1 ∈ regionKeys dfB
    ∧ meanDelta dfB ("A", (-4 : ℚ)).1 = some ("A", (-4 : ℚ)).2 :=
  (top_risque_sorted dfB).2.2.1 ("A", (-4 : ℚ)) (by
    have f1 : dfB.filter (fun r => r.region == some "A")
        = [mkRegionRow "A" (some (-4))] := by decide
    have h : meanDelta dfB "A" = some (-4) := by
      unfold meanDelta
      rw [f1]
      norm_num [meanOpt, mkRegionRow, List.filterMap_cons, List.sum_cons, List.sum_nil]
    have hk : regionKeys dfB = ["A"] := by decide
    unfold nsmallest groupRegionMeanDelta dropna
    rw [hk, List.map_cons, List.map_nil, h]
    decide)

end Energie
